import Mathlib

/-!
Shallow embedding of `src/components/AIWorker.jsx` (okekedev/Stocks2).

The component holds React state `logs / analyzing / complete / result` plus a
ref guard `analysisInProgress`.  The async function `performRealAIAnalysis`
is the run body: it checks the guard, resets state, appends four startup log
entries, calls `geminiService.analyzeStock(stock, onProgress)` (each progress
callback appends one `progress` entry), and on resolution appends the
success / result / reasoning (and conditionally forecast) entries, attaching
the accumulated entries to the result; on rejection it appends one `error`
entry and synthesizes a fallback result.  The auto-start effect fires a
single run on mount when `autoStart` is set and no saved analysis exists.

The embedding is deterministic: wall-clock ids and timestamps of log entries
are supplied by an environment function `env : Nat → Nat × Nat` giving the
`(id, timestamp)` of the k-th entry created during a run, and the external
service is a value `ServiceCall` recording the progress messages it emits
before settling and its outcome (`Except` models promise rejection).
-/

namespace AIWorker

/-- The `type` field values used by `addLog` calls in the source
(`system`, `info`, `progress`, `success`, `result`, `reasoning`,
`forecast`, `error`). -/
inductive LogType
  | system
  | info
  | progress
  | success
  | result
  | reasoning
  | forecast
  | error
  deriving DecidableEq, Repr

/-- One log entry as built by `addLog`: `{ id, timestamp, message, type }`. -/
structure LogEntry where
  id : Nat
  timestamp : Nat
  message : String
  type : LogType
  deriving DecidableEq, Repr

/-- Left-pads a digit string with zeros, used to render fractional digits. -/
def padZeros (s : String) (len : Nat) : String :=
  if s.length < len then String.mk (List.replicate (len - s.length) '0') ++ s else s

/-- Model of JavaScript `Number.prototype.toFixed(digits)` on rationals:
round to `digits` decimal places and render with a fixed number of
fractional digits. -/
def toFixed (digits : Nat) (q : Rat) : String :=
  let n : Int := round (q * (10 : Rat) ^ digits)
  let sign := if n < 0 then "-" else ""
  let m := n.natAbs
  if digits = 0 then sign ++ toString m
  else sign ++ toString (m / 10 ^ digits) ++ "." ++ padZeros (toString (m % 10 ^ digits)) digits

/-- `x?.toFixed(d)` interpolated into a template string: JavaScript renders
`undefined` when the optional chain short-circuits. -/
def optToFixed (digits : Nat) (q : Option Rat) : String :=
  match q with
  | some x => toFixed digits x
  | none => "undefined"

/-- `x > 0` in JavaScript where `x` may be `undefined` (then the comparison
is false). -/
def optPos (q : Option Rat) : Bool :=
  match q with
  | some x => decide (0 < x)
  | none => false

/-- The `stock` prop: ticker, current price, percent change, news count. -/
structure Stock where
  ticker : String
  currentPrice : Option Rat
  changePercent : Option Rat
  newsCount : Nat
  deriving DecidableEq, Repr

/-- The object resolved by `geminiService.analyzeStock`.  `eodMovement` is
optional (`undefined`/`null` both collapse to `none`); the trailing fields
may or may not be present on the service's object (the source reads them
only in the render path). -/
structure AIResult where
  signal : String
  buyPercentage : Nat
  reasoning : String
  eodMovement : Option Rat
  confidence : Rat
  analysisTimestamp : Option Nat
  hasTechnicalData : Option Bool
  technicalBars : Option Nat
  hasFullArticle : Option Bool
  deriving DecidableEq, Repr

/-- The result object exposed by the panel: the service result (or the
fallback) with `savedLogs` attached.  Fields absent from the underlying
JavaScript object are `none`. -/
structure FinalResult where
  signal : String
  buyPercentage : Nat
  reasoning : String
  eodMovement : Option Rat
  confidence : Rat
  analysisTimestamp : Option Nat
  hasTechnicalData : Option Bool
  technicalBars : Option Nat
  hasFullArticle : Option Bool
  savedLogs : List LogEntry
  deriving DecidableEq, Repr

/-- `{...aiResult, savedLogs: allLogs}` (source line 125). -/
def attachLogs (r : AIResult) (l : List LogEntry) : FinalResult :=
  { signal := r.signal
    buyPercentage := r.buyPercentage
    reasoning := r.reasoning
    eodMovement := r.eodMovement
    confidence := r.confidence
    analysisTimestamp := r.analysisTimestamp
    hasTechnicalData := r.hasTechnicalData
    technicalBars := r.technicalBars
    hasFullArticle := r.hasFullArticle
    savedLogs := l }

/-- The fallback result literal of the catch block (source lines 139-146):
only the six listed fields are present on the object. -/
def fallbackResult (l : List LogEntry) : FinalResult :=
  { buyPercentage := 30
    signal := "hold"
    reasoning := "AI service unavailable"
    eodMovement := some 0
    confidence := 0.2
    analysisTimestamp := none
    hasTechnicalData := none
    technicalBars := none
    hasFullArticle := none
    savedLogs := l }

/-- `addLog` creates an entry whose id and timestamp come from the wall
clock; the environment supplies them for the k-th entry of a run. -/
def mkLog (env : Nat → Nat × Nat) (k : Nat) (message : String) (t : LogType) : LogEntry :=
  { id := (env k).1, timestamp := (env k).2, message := message, type := t }

/-- Source line 90. -/
def startingMsg (stock : Stock) : String :=
  "🤖 Starting AI analysis for " ++ stock.ticker ++ "..."

/-- Source line 93. -/
def priceMsg (stock : Stock) : String :=
  "📊 Price: $" ++ optToFixed 2 stock.currentPrice ++ " (" ++
    (if optPos stock.changePercent then "+" else "") ++
    optToFixed 2 stock.changePercent ++ "%)"

/-- Source line 96. -/
def newsMsg (stock : Stock) : String :=
  "📰 Analyzing " ++ toString stock.newsCount ++ " news articles..."

/-- Source line 99. -/
def sendingMsg : String := "🧠 Sending to Gemini AI..."

/-- The four fixed startup entries (log1..log4, source lines 90-100). -/
def startupLogs (env : Nat → Nat × Nat) (stock : Stock) : List LogEntry :=
  [mkLog env 0 (startingMsg stock) LogType.system,
   mkLog env 1 (priceMsg stock) LogType.info,
   mkLog env 2 (newsMsg stock) LogType.info,
   mkLog env 3 sendingMsg LogType.system]

/-- The entries appended by the `onProgress` callback (source lines 103-106),
one per progress message, in callback order, numbered from `k`. -/
def progressLogs (env : Nat → Nat × Nat) : Nat → List String → List LogEntry
  | _, [] => []
  | k, m :: ms => mkLog env k m LogType.progress :: progressLogs env (k + 1) ms

/-- Source line 108. -/
def completeMsg : String := "✅ AI analysis complete"

/-- Source line 111. -/
def signalMsg (r : AIResult) : String :=
  "🎯 Signal: " ++ r.signal.toUpper ++ " (" ++ toString r.buyPercentage ++ "%)"

/-- Source line 114. -/
def reasoningMsg (r : AIResult) : String := "💭 " ++ r.reasoning

/-- Source line 119: the direction glyph chosen from the sign of
`eodMovement`. -/
def movementDirection (mv : Rat) : String :=
  if 0 < mv then "📈" else if mv < 0 then "📉" else "➡️"

/-- Source line 120. -/
def forecastMsg (mv : Rat) : String :=
  movementDirection mv ++ " EOD Movement: " ++
    (if 0 < mv then "+" else "") ++ toFixed 1 mv ++ "%"

/-- Source line 135. -/
def failureMsg (msg : String) : String := "❌ Analysis failed: " ++ msg

/-- The entries appended after the service resolves (log5..log8, source
lines 108-122): success, result, reasoning, and the forecast entry exactly
when `eodMovement` is defined. -/
def successLogs (env : Nat → Nat × Nat) (k : Nat) (r : AIResult) : List LogEntry :=
  [mkLog env k completeMsg LogType.success,
   mkLog env (k + 1) (signalMsg r) LogType.result,
   mkLog env (k + 2) (reasoningMsg r) LogType.reasoning] ++
  (match r.eodMovement with
   | some mv => [mkLog env (k + 3) (forecastMsg mv) LogType.forecast]
   | none => [])

/-- One behaviour of `geminiService.analyzeStock`: the progress messages it
emits before settling, and its settlement (resolution with an `AIResult` or
rejection with an error message). -/
structure ServiceCall where
  progressMessages : List String
  outcome : Except String AIResult

/-- The complete `allLogs` sequence accumulated by one run with service
behaviour `svc` (the run body appends exactly these, in this order). -/
def runLogs (env : Nat → Nat × Nat) (stock : Stock) (svc : ServiceCall) : List LogEntry :=
  let pre := startupLogs env stock ++ progressLogs env 4 svc.progressMessages
  let k := 4 + svc.progressMessages.length
  match svc.outcome with
  | Except.ok r => pre ++ successLogs env k r
  | Except.error msg => pre ++ [mkLog env k (failureMsg msg) LogType.error]

/-- The component state: `logs`, `analyzing`, `complete`, `result` React
state plus the `analysisInProgress` ref. -/
structure PanelState where
  logs : List LogEntry
  analyzing : Bool
  complete : Bool
  result : Option FinalResult
  analysisInProgress : Bool
  deriving DecidableEq, Repr

/-- Externally observable actions of one run: the `onAnalysisStart` call,
the dispatch of `geminiService.analyzeStock`, and the `onAnalysisComplete`
call, in program order. -/
inductive REvent
  | evStart (ticker : String)
  | evService
  | evComplete (ticker : String) (r : FinalResult)
  deriving DecidableEq, Repr

/-- Number of service dispatches in a trace. -/
def serviceCallCount (tr : List REvent) : Nat :=
  (tr.filter (fun e => match e with | REvent.evService => true | _ => false)).length

/-- Number of `onAnalysisStart` invocations in a trace. -/
def startCallCount (tr : List REvent) : Nat :=
  (tr.filter (fun e => match e with | REvent.evStart _ => true | _ => false)).length

/-- Number of `onAnalysisComplete` invocations in a trace. -/
def completeCallCount (tr : List REvent) : Nat :=
  (tr.filter (fun e => match e with | REvent.evComplete _ _ => true | _ => false)).length

/-- `performRealAIAnalysis` (source lines 74-154) as a state transformer:
given the service behaviour for this invocation, the resulting state and
the trace of external events.  If the guard is set (`analyzing` state or
`analysisInProgress` ref) the call returns immediately.  Otherwise the run
sets the guard, resets the state, fires `onAnalysisStart`, appends the
startup and progress entries, and on resolution (resp. rejection) stores
the result with logs attached (resp. the fallback, leaving `complete`
false), fires `onAnalysisComplete`, and clears the guard in `finally`. -/
def performRealAIAnalysis (env : Nat → Nat × Nat) (stock : Stock) (svc : ServiceCall)
    (s : PanelState) : PanelState × List REvent :=
  if s.analyzing || s.analysisInProgress then
    (s, [])
  else
    let allLogs := runLogs env stock svc
    match svc.outcome with
    | Except.ok r =>
        let finalResult := attachLogs r allLogs
        ({ logs := allLogs, analyzing := false, complete := true,
           result := some finalResult, analysisInProgress := false },
         [REvent.evStart stock.ticker, REvent.evService,
          REvent.evComplete stock.ticker finalResult])
    | Except.error _ =>
        let fb := fallbackResult allLogs
        ({ logs := allLogs, analyzing := false, complete := false,
           result := some fb, analysisInProgress := false },
         [REvent.evStart stock.ticker, REvent.evService,
          REvent.evComplete stock.ticker fb])

/-- The props a panel instance is constructed with (the ones the lifecycle
reads; callbacks are modelled by the event trace). -/
structure PanelProps where
  autoStart : Bool
  savedLogs : Option (List LogEntry)
  savedResult : Option FinalResult
  deriving DecidableEq, Repr

/-- The `useState` initialisers (source lines 16-19):
`logs = savedLogs || []`, `analyzing = false`, `complete = !!savedResult`,
`result = savedResult`; the ref starts clear. -/
def initState (p : PanelProps) : PanelState :=
  { logs := p.savedLogs.getD []
    analyzing := false
    complete := p.savedResult.isSome
    result := p.savedResult
    analysisInProgress := false }

/-- `savedResult || (savedLogs && savedLogs.length > 0)` (source line 27). -/
def hasExistingAnalysis (p : PanelProps) : Bool :=
  p.savedResult.isSome ||
    (match p.savedLogs with
     | some l => decide (0 < l.length)
     | none => false)

/-- The auto-start condition of the mount effect (source line 29), read on
the freshly initialised state. -/
def autoStartFires (p : PanelProps) : Bool :=
  p.autoStart && !(initState p).analyzing && !(initState p).complete &&
    !hasExistingAnalysis p && !(initState p).analysisInProgress

/-- The fixed delay of the scheduled auto-start call (source line 34). -/
def autoStartDelayMs : Nat := 500

/-- Event trace produced by mounting the panel: the auto-start effect
schedules one `performRealAIAnalysis` when its condition holds, else no
external action happens until user interaction. -/
def mountTrace (env : Nat → Nat × Nat) (stock : Stock) (svc : ServiceCall)
    (p : PanelProps) : List REvent :=
  if autoStartFires p then (performRealAIAnalysis env stock svc (initState p)).2 else []

/-- An observable in-flight state of a run started from `s`: the React
renders between the dispatch of the service call and its settlement, after
`i` progress callbacks.  The guard is set, `analyzing` is true, `complete`
was reset, and `result` still holds whatever it held before the run. -/
def midRunState (env : Nat → Nat × Nat) (stock : Stock) (svc : ServiceCall)
    (s : PanelState) (i : Nat) : PanelState :=
  { logs := startupLogs env stock ++ (progressLogs env 4 svc.progressMessages).take i
    analyzing := true
    complete := false
    result := s.result
    analysisInProgress := true }

/-- The unmount cleanup effect (source lines 157-161): it clears only the
`analysisInProgress` ref. -/
def unmountCleanup (s : PanelState) : PanelState :=
  { logs := s.logs
    analyzing := s.analyzing
    complete := s.complete
    result := s.result
    analysisInProgress := false }

/-- The states a panel constructed with props `p` can be observed in:
the initial state, any in-flight state of a run started while the guard is
clear, and the state left by a completed invocation of
`performRealAIAnalysis` (which is a no-op when the guard is set). -/
inductive Reach (env : Nat → Nat × Nat) (stock : Stock) (p : PanelProps) : PanelState → Prop
  | init : Reach env stock p (initState p)
  | mid (s : PanelState) (svc : ServiceCall) (i : Nat) :
      Reach env stock p s → s.analyzing = false → s.analysisInProgress = false →
      Reach env stock p (midRunState env stock svc s i)
  | fin (s : PanelState) (svc : ServiceCall) :
      Reach env stock p s →
      Reach env stock p (performRealAIAnalysis env stock svc s).1

/-! Concrete values used to instantiate theorems. -/

/-- Environment assigning id `k` and timestamp `k` to the k-th entry. -/
def envId : Nat → Nat × Nat := fun k => (k, k)

/-- A concrete stock prop. -/
def sampleStock : Stock :=
  { ticker := "AAPL", currentPrice := some 150, changePercent := some 1.5, newsCount := 3 }

/-- A service behaviour that rejects with message `"timeout"` after no
progress messages. -/
def failingSvc : ServiceCall :=
  { progressMessages := [], outcome := Except.error "timeout" }

/-- The concrete resolution value named in the spec's test property. -/
def okResult : AIResult :=
  { signal := "buy"
    buyPercentage := 72
    reasoning := "strong momentum"
    eodMovement := some 1.8
    confidence := 0.81
    analysisTimestamp := some 1000
    hasTechnicalData := some true
    technicalBars := some 50
    hasFullArticle := some true }

/-- A service behaviour resolving with `okResult` after two progress
messages. -/
def okSvc : ServiceCall :=
  { progressMessages := ["Fetching market data...", "Evaluating sentiment..."]
    outcome := Except.ok okResult }

/-- A resolution value with `eodMovement` absent. -/
def okResultNoEod : AIResult :=
  { signal := "sell"
    buyPercentage := 20
    reasoning := "weak outlook"
    eodMovement := none
    confidence := 0.6
    analysisTimestamp := some 2000
    hasTechnicalData := none
    technicalBars := none
    hasFullArticle := none }

/-- A service behaviour resolving with `okResultNoEod`. -/
def okSvcNoEod : ServiceCall :=
  { progressMessages := [], outcome := Except.ok okResultNoEod }

/-- Props of a fresh panel: no snapshot, no auto-start. -/
def freshProps : PanelProps :=
  { autoStart := false, savedLogs := none, savedResult := none }

/-- Props of a fresh panel with auto-start requested. -/
def autoProps : PanelProps :=
  { autoStart := true, savedLogs := none, savedResult := none }

/-- Props carrying a prior-session snapshot: one saved log entry and
auto-start requested. -/
def snapshotProps : PanelProps :=
  { autoStart := true
    savedLogs := some [mkLog envId 0 "old entry" LogType.info]
    savedResult := none }

/-! Helper lemmas about the log sequences. -/

/-- The progress entries carry exactly the callback messages, in order. -/
theorem progressLogs_map_message (env : Nat → Nat × Nat) (k : Nat) (ms : List String) :
    (progressLogs env k ms).map LogEntry.message = ms := by
  induction ms generalizing k with
  | nil => rfl
  | cons m ms ih => simp [progressLogs, mkLog, ih]

/-- Every progress entry has category `progress`. -/
theorem progressLogs_map_type (env : Nat → Nat × Nat) (k : Nat) (ms : List String) :
    (progressLogs env k ms).map LogEntry.type =
      List.replicate ms.length LogType.progress := by
  induction ms generalizing k with
  | nil => rfl
  | cons m ms ih => simp [progressLogs, mkLog, ih, List.replicate_succ]

/-- One progress entry per callback. -/
theorem progressLogs_length (env : Nat → Nat × Nat) (k : Nat) (ms : List String) :
    (progressLogs env k ms).length = ms.length := by
  induction ms generalizing k with
  | nil => rfl
  | cons m ms ih => simp [progressLogs, ih]

/-- Membership in the progress entries forces category `progress`. -/
theorem progressLogs_type_of_mem (env : Nat → Nat × Nat) (k : Nat) (ms : List String)
    (e : LogEntry) (he : e ∈ progressLogs env k ms) : e.type = LogType.progress := by
  induction ms generalizing k with
  | nil => cases he
  | cons m ms ih =>
      rcases List.mem_cons.mp he with he | he
      · rw [he]; rfl
      · exact ih _ he

/-- The four startup entries: categories system, info, info, system. -/
theorem startupLogs_map_type (env : Nat → Nat × Nat) (stock : Stock) :
    (startupLogs env stock).map LogEntry.type =
      [LogType.system, LogType.info, LogType.info, LogType.system] := rfl

/-- The direction glyph of a positive movement. -/
theorem movementDirection_pos (mv : Rat) (h : 0 < mv) : movementDirection mv = "📈" := by
  simp [movementDirection, h]

/-- The direction glyph of a negative movement. -/
theorem movementDirection_neg (mv : Rat) (h : mv < 0) : movementDirection mv = "📉" := by
  have h2 : ¬ 0 < mv := not_lt.mpr h.le
  simp [movementDirection, h2, h]

/-- The direction glyph of a zero movement. -/
theorem movementDirection_zero (mv : Rat) (h : mv = 0) : movementDirection mv = "➡️" := by
  simp [movementDirection, h]

/-! Claim theorems. -/

/-- Claim C1: on a run whose service call resolves, the `savedLogs` attached
to the final result are, in order: one system entry, two info entries, one
system entry, the progress entries, one success entry, one result entry,
one reasoning entry, and — exactly when `eodMovement` is defined — one final
forecast entry whose direction glyph matches the sign of `eodMovement`;
when `eodMovement` is absent the sequence ends at the reasoning entry. -/
theorem c1_success_log_sequence (env : Nat → Nat × Nat) (stock : Stock) (svc : ServiceCall)
    (s : PanelState) (r : AIResult)
    (hg1 : s.analyzing = false) (hg2 : s.analysisInProgress = false)
    (ho : svc.outcome = Except.ok r) :
    ∃ fr : FinalResult,
      (performRealAIAnalysis env stock svc s).1.result = some fr ∧
      fr.savedLogs.map LogEntry.type =
        [LogType.system, LogType.info, LogType.info, LogType.system] ++
          List.replicate svc.progressMessages.length LogType.progress ++
          [LogType.success, LogType.result, LogType.reasoning] ++
          (match r.eodMovement with
           | some _ => [LogType.forecast]
           | none => []) ∧
      ∀ mv, r.eodMovement = some mv →
        (∃ l, fr.savedLogs =
            l ++ [mkLog env (4 + svc.progressMessages.length + 3)
                    (forecastMsg mv) LogType.forecast]) ∧
        (0 < mv → movementDirection mv = "📈") ∧
        (mv < 0 → movementDirection mv = "📉") ∧
        (mv = 0 → movementDirection mv = "➡️") := by
  refine ⟨attachLogs r (runLogs env stock svc), ?_, ?_, ?_⟩
  · simp [performRealAIAnalysis, hg1, hg2, ho]
  · cases hm : r.eodMovement with
    | none =>
        simp [attachLogs, runLogs, ho, successLogs, hm, startupLogs, mkLog,
          progressLogs_map_type]
    | some mv =>
        simp [attachLogs, runLogs, ho, successLogs, hm, startupLogs, mkLog,
          progressLogs_map_type]
  · intro mv hmv
    refine ⟨⟨startupLogs env stock ++ progressLogs env 4 svc.progressMessages ++
        [mkLog env (4 + svc.progressMessages.length) completeMsg LogType.success,
         mkLog env (4 + svc.progressMessages.length + 1) (signalMsg r) LogType.result,
         mkLog env (4 + svc.progressMessages.length + 2) (reasoningMsg r) LogType.reasoning],
        ?_⟩,
      movementDirection_pos mv, movementDirection_neg mv, movementDirection_zero mv⟩
    simp [attachLogs, runLogs, ho, successLogs, hmv]

/-- Claim C1 witness: the concrete resolution named in the spec
(`signal="buy"`, `buyPercentage=72`, `eodMovement=1.8`) on a fresh panel. -/
theorem c1_witness :
    ∃ fr : FinalResult,
      (performRealAIAnalysis envId sampleStock okSvc (initState freshProps)).1.result = some fr ∧
      fr.savedLogs.map LogEntry.type =
        [LogType.system, LogType.info, LogType.info, LogType.system] ++
          List.replicate okSvc.progressMessages.length LogType.progress ++
          [LogType.success, LogType.result, LogType.reasoning] ++
          (match okResult.eodMovement with
           | some _ => [LogType.forecast]
           | none => []) ∧
      ∀ mv, okResult.eodMovement = some mv →
        (∃ l, fr.savedLogs =
            l ++ [mkLog envId (4 + okSvc.progressMessages.length + 3)
                    (forecastMsg mv) LogType.forecast]) ∧
        (0 < mv → movementDirection mv = "📈") ∧
        (mv < 0 → movementDirection mv = "📉") ∧
        (mv = 0 → movementDirection mv = "➡️") :=
  c1_success_log_sequence envId sampleStock okSvc (initState freshProps) okResult rfl rfl rfl

/-- Claim C2: for every run, each of the `N ≥ 0` progress callbacks appends
exactly one `progress` entry, in callback order, positioned after the four
fixed startup entries (none of which is a progress entry) and before the
post-resolution entries (none of which is a progress entry). -/
theorem c2_progress_entries (env : Nat → Nat × Nat) (stock : Stock) (svc : ServiceCall) :
    ∃ post : List LogEntry,
      runLogs env stock svc =
        startupLogs env stock ++ progressLogs env 4 svc.progressMessages ++ post ∧
      (startupLogs env stock).length = 4 ∧
      (∀ e ∈ startupLogs env stock, e.type ≠ LogType.progress) ∧
      (progressLogs env 4 svc.progressMessages).length = svc.progressMessages.length ∧
      (progressLogs env 4 svc.progressMessages).map LogEntry.message = svc.progressMessages ∧
      (∀ e ∈ progressLogs env 4 svc.progressMessages, e.type = LogType.progress) ∧
      (∀ e ∈ post, e.type ≠ LogType.progress) := by
  have hstart : ∀ e ∈ startupLogs env stock, e.type ≠ LogType.progress := by
    intro e he
    simp only [startupLogs, List.mem_cons, List.not_mem_nil, or_false] at he
    rcases he with h | h | h | h <;> subst h <;> simp [mkLog]
  cases ho : svc.outcome with
  | ok r =>
      refine ⟨successLogs env (4 + svc.progressMessages.length) r, ?_, rfl, hstart,
        progressLogs_length env 4 _, progressLogs_map_message env 4 _,
        fun e he => progressLogs_type_of_mem env 4 _ e he, ?_⟩
      · simp [runLogs, ho]
      · intro e he
        cases hm : r.eodMovement with
        | none =>
            simp only [successLogs, hm, List.append_nil, List.mem_cons,
              List.not_mem_nil, or_false] at he
            rcases he with h | h | h <;> subst h <;> simp [mkLog]
        | some mv =>
            simp only [successLogs, hm, List.mem_append, List.mem_cons,
              List.not_mem_nil, or_false] at he
            rcases he with (h | h | h) | h <;> subst h <;> simp [mkLog]
  | error msg =>
      refine ⟨[mkLog env (4 + svc.progressMessages.length) (failureMsg msg) LogType.error],
        ?_, rfl, hstart, progressLogs_length env 4 _, progressLogs_map_message env 4 _,
        fun e he => progressLogs_type_of_mem env 4 _ e he, ?_⟩
      · simp [runLogs, ho]
      · intro e he
        simp only [List.mem_cons, List.not_mem_nil, or_false] at he
        subst he
        simp [mkLog]

/-- Claim C3, as stated: every failing run's fallback carries
`reasoning = "service unavailable"`.  (The spec's other conjuncts are
dropped; refuting this consequence refutes the claim.) -/
def claimC3 : Prop :=
  ∀ (env : Nat → Nat × Nat) (stock : Stock) (svc : ServiceCall) (s : PanelState) (msg : String),
    s.analyzing = false → s.analysisInProgress = false → svc.outcome = Except.error msg →
    ∀ fr : FinalResult, (performRealAIAnalysis env stock svc s).1.result = some fr →
      fr.reasoning = "service unavailable"

/-- Claim C3 counterexample: on a fresh panel whose service call rejects
with `"timeout"`, the fallback's reasoning is the source literal
`"AI service unavailable"`, not `"service unavailable"`. -/
theorem c3_counterexample : ¬claimC3 := by
  intro h
  have h2 := h envId sampleStock failingSvc (initState freshProps) "timeout" rfl rfl rfl
    (fallbackResult (runLogs envId sampleStock failingSvc)) rfl
  exact absurd h2 (by decide)

/-- Claim C3 (amended): every failing run yields the fallback result
`buyPercentage=30, signal="hold", reasoning="AI service unavailable",
eodMovement=0, confidence=0.2` with the accumulated logs attached, whose
last log entry has category `error` and carries the failure description,
delivered to the container through the same completion callback as a
success. -/
theorem c3_failure_fallback (env : Nat → Nat × Nat) (stock : Stock) (svc : ServiceCall)
    (s : PanelState) (msg : String)
    (hg1 : s.analyzing = false) (hg2 : s.analysisInProgress = false)
    (ho : svc.outcome = Except.error msg) :
    ∃ fr : FinalResult,
      (performRealAIAnalysis env stock svc s).1.result = some fr ∧
      fr.buyPercentage = 30 ∧ fr.signal = "hold" ∧
      fr.reasoning = "AI service unavailable" ∧
      fr.eodMovement = some 0 ∧ fr.confidence = 0.2 ∧
      fr.savedLogs = runLogs env stock svc ∧
      (∃ l, fr.savedLogs =
          l ++ [mkLog env (4 + svc.progressMessages.length) (failureMsg msg) LogType.error]) ∧
      (performRealAIAnalysis env stock svc s).2 =
        [REvent.evStart stock.ticker, REvent.evService, REvent.evComplete stock.ticker fr] := by
  refine ⟨fallbackResult (runLogs env stock svc), ?_, rfl, rfl, rfl, rfl, rfl, rfl, ?_, ?_⟩
  · simp [performRealAIAnalysis, hg1, hg2, ho]
  · exact ⟨startupLogs env stock ++ progressLogs env 4 svc.progressMessages,
      by simp [fallbackResult, runLogs, ho]⟩
  · simp [performRealAIAnalysis, hg1, hg2, ho]

/-- Claim C3 witness: the rejection with message `"timeout"` on a fresh
panel. -/
theorem c3_witness :
    ∃ fr : FinalResult,
      (performRealAIAnalysis envId sampleStock failingSvc (initState freshProps)).1.result =
        some fr ∧
      fr.buyPercentage = 30 ∧ fr.signal = "hold" ∧
      fr.reasoning = "AI service unavailable" ∧
      fr.eodMovement = some 0 ∧ fr.confidence = 0.2 ∧
      fr.savedLogs = runLogs envId sampleStock failingSvc ∧
      (∃ l, fr.savedLogs =
          l ++ [mkLog envId (4 + failingSvc.progressMessages.length)
                  (failureMsg "timeout") LogType.error]) ∧
      (performRealAIAnalysis envId sampleStock failingSvc (initState freshProps)).2 =
        [REvent.evStart sampleStock.ticker, REvent.evService,
         REvent.evComplete sampleStock.ticker fr] :=
  c3_failure_fallback envId sampleStock failingSvc (initState freshProps) "timeout" rfl rfl rfl

/-- Claim C4, as stated: in every reachable panel state, the result is
present iff `complete` is true or a prior session snapshot supplied one.
(The claim's remaining conjuncts are dropped; refuting this consequence
refutes the claim.) -/
def claimC4 : Prop :=
  ∀ (env : Nat → Nat × Nat) (stock : Stock) (p : PanelProps) (s : PanelState),
    Reach env stock p s →
      (s.result.isSome = true ↔ (s.complete = true ∨ p.savedResult.isSome = true))

/-- Claim C4 counterexample: after a failed run on a fresh panel the catch
block stores the fallback result but never sets `complete`, so the state
holds a result while `complete` is false and no snapshot was supplied. -/
theorem c4_counterexample : ¬claimC4 := by
  intro h
  have h2 := h envId sampleStock freshProps
    (performRealAIAnalysis envId sampleStock failingSvc (initState freshProps)).1
    (Reach.fin (initState freshProps) failingSvc Reach.init)
  have e1 : (performRealAIAnalysis envId sampleStock failingSvc
      (initState freshProps)).1.result.isSome = true := rfl
  have e2 : (performRealAIAnalysis envId sampleStock failingSvc
      (initState freshProps)).1.complete = false := rfl
  rw [e1, e2] at h2
  simp [freshProps] at h2

/-- Claim C4 (amended): in every reachable panel state, `analyzing` and
`complete` are never both true; if `complete` is true a result is present
(a result may also be present with `complete` false: the fallback of a
failed run, or the previous result retained while a re-run is in flight);
the guard flag equals `analyzing`, so it is true exactly during the one
in-flight request and clear on success and failure exits, and component
teardown clears it unconditionally. -/
theorem c4_state_invariant (env : Nat → Nat × Nat) (stock : Stock) (p : PanelProps)
    (s : PanelState) (h : Reach env stock p s) :
    (¬(s.analyzing = true ∧ s.complete = true)) ∧
    (s.complete = true → s.result.isSome = true) ∧
    s.analysisInProgress = s.analyzing ∧
    (unmountCleanup s).analysisInProgress = false := by
  induction h with
  | init =>
      refine ⟨?_, ?_, rfl, rfl⟩ <;> simp [initState]
  | mid s svc i hs ha hg ih =>
      refine ⟨?_, ?_, rfl, rfl⟩ <;> simp [midRunState]
  | fin s svc hs ih =>
      cases hb : (s.analyzing || s.analysisInProgress) with
      | true => simpa [performRealAIAnalysis, hb] using ih
      | false =>
          cases ho : svc.outcome with
          | ok r => simp [performRealAIAnalysis, hb, ho, unmountCleanup]
          | error msg => simp [performRealAIAnalysis, hb, ho, unmountCleanup]

/-- Claim C4 witness: the invariant evaluated at the initial state of a
fresh panel. -/
theorem c4_witness :
    (¬((initState freshProps).analyzing = true ∧ (initState freshProps).complete = true)) ∧
    ((initState freshProps).complete = true → (initState freshProps).result.isSome = true) ∧
    (initState freshProps).analysisInProgress = (initState freshProps).analyzing ∧
    (unmountCleanup (initState freshProps)).analysisInProgress = false :=
  c4_state_invariant envId sampleStock freshProps (initState freshProps) Reach.init

/-- Claim C5: when the guard is already set (the `analyzing` state or the
`analysisInProgress` ref), invoking the run is a no-op: the state (hence the
log sequence) is unchanged, and no service call or callback happens, so a
second run can never interleave with the one in flight. -/
theorem c5_guard_noop (env : Nat → Nat × Nat) (stock : Stock) (svc : ServiceCall)
    (s : PanelState) (h : s.analyzing = true ∨ s.analysisInProgress = true) :
    (performRealAIAnalysis env stock svc s).1 = s ∧
    (performRealAIAnalysis env stock svc s).2 = [] ∧
    serviceCallCount (performRealAIAnalysis env stock svc s).2 = 0 ∧
    startCallCount (performRealAIAnalysis env stock svc s).2 = 0 ∧
    completeCallCount (performRealAIAnalysis env stock svc s).2 = 0 := by
  have hb : (s.analyzing || s.analysisInProgress) = true := by
    rcases h with h | h <;> simp [h]
  simp [performRealAIAnalysis, hb, serviceCallCount, startCallCount, completeCallCount]

/-- Claim C5 witness: a duplicate invocation against an in-flight state. -/
theorem c5_witness :
    (performRealAIAnalysis envId sampleStock okSvc
        (midRunState envId sampleStock okSvc (initState freshProps) 0)).1 =
      midRunState envId sampleStock okSvc (initState freshProps) 0 ∧
    (performRealAIAnalysis envId sampleStock okSvc
        (midRunState envId sampleStock okSvc (initState freshProps) 0)).2 = [] ∧
    serviceCallCount (performRealAIAnalysis envId sampleStock okSvc
        (midRunState envId sampleStock okSvc (initState freshProps) 0)).2 = 0 ∧
    startCallCount (performRealAIAnalysis envId sampleStock okSvc
        (midRunState envId sampleStock okSvc (initState freshProps) 0)).2 = 0 ∧
    completeCallCount (performRealAIAnalysis envId sampleStock okSvc
        (midRunState envId sampleStock okSvc (initState freshProps) 0)).2 = 0 :=
  c5_guard_noop envId sampleStock okSvc
    (midRunState envId sampleStock okSvc (initState freshProps) 0) (Or.inl rfl)

/-- Claim C6: a panel constructed with a non-empty saved log sequence or a
saved result never auto-starts, whatever `autoStart` is, so no service call
happens at mount; the snapshot is shown as-is until the user explicitly
re-analyzes. -/
theorem c6_snapshot_blocks_autostart (env : Nat → Nat × Nat) (stock : Stock)
    (svc : ServiceCall) (p : PanelProps)
    (h : (∃ l, p.savedLogs = some l ∧ l ≠ []) ∨ p.savedResult.isSome = true) :
    autoStartFires p = false ∧ mountTrace env stock svc p = [] ∧
    serviceCallCount (mountTrace env stock svc p) = 0 := by
  have hfires : autoStartFires p = false := by
    rcases h with ⟨l, hl, hne⟩ | hr
    · have hx : hasExistingAnalysis p = true := by
        simp [hasExistingAnalysis, hl, List.length_pos, hne]
      simp [autoStartFires, hx]
    · simp [autoStartFires, initState, hr]
  refine ⟨hfires, ?_, ?_⟩ <;> simp [mountTrace, hfires, serviceCallCount]

/-- Claim C6 witness: a snapshot with one saved log entry and
`autoStart = true`. -/
theorem c6_witness :
    autoStartFires snapshotProps = false ∧
    mountTrace envId sampleStock okSvc snapshotProps = [] ∧
    serviceCallCount (mountTrace envId sampleStock okSvc snapshotProps) = 0 :=
  c6_snapshot_blocks_autostart envId sampleStock okSvc snapshotProps
    (Or.inl ⟨[mkLog envId 0 "old entry" LogType.info], rfl, by decide⟩)

/-- Claim C7: a panel constructed with `autoStart = true` and no prior
snapshot fires the auto-start, and mounting produces exactly one service
dispatch with no user interaction, scheduled after the fixed 500 ms
delay. -/
theorem c7_autostart_single_call (env : Nat → Nat × Nat) (stock : Stock) (svc : ServiceCall)
    (p : PanelProps) (h1 : p.autoStart = true)
    (h2 : p.savedLogs = none ∨ p.savedLogs = some []) (h3 : p.savedResult = none) :
    autoStartFires p = true ∧
    serviceCallCount (mountTrace env stock svc p) = 1 ∧
    autoStartDelayMs = 500 := by
  have hfires : autoStartFires p = true := by
    rcases h2 with h2 | h2 <;>
      simp [autoStartFires, hasExistingAnalysis, initState, h1, h2, h3]
  refine ⟨hfires, ?_, rfl⟩
  cases ho : svc.outcome with
  | ok r =>
      simp [mountTrace, hfires, performRealAIAnalysis, initState, ho, serviceCallCount]
  | error msg =>
      simp [mountTrace, hfires, performRealAIAnalysis, initState, ho, serviceCallCount]

/-- Claim C7 witness: a fresh auto-start panel mounted against the resolving
service behaviour. -/
theorem c7_witness :
    autoStartFires autoProps = true ∧
    serviceCallCount (mountTrace envId sampleStock okSvc autoProps) = 1 ∧
    autoStartDelayMs = 500 :=
  c7_autostart_single_call envId sampleStock okSvc autoProps rfl (Or.inl rfl) rfl

/-- Claim C8: every run fires `onAnalysisStart` exactly once, with the
subject's ticker, strictly before the service dispatch, and fires
`onAnalysisComplete` exactly once with the ticker and the final result, on
the success path and on the failure path alike; the run body always returns
normally (the model is a total function over both outcomes), so no service
error escapes as an exception. -/
theorem c8_callbacks_once (env : Nat → Nat × Nat) (stock : Stock) (svc : ServiceCall)
    (s : PanelState)
    (hg1 : s.analyzing = false) (hg2 : s.analysisInProgress = false) :
    ∃ res : FinalResult,
      (performRealAIAnalysis env stock svc s).2 =
        [REvent.evStart stock.ticker, REvent.evService, REvent.evComplete stock.ticker res] ∧
      (performRealAIAnalysis env stock svc s).1.result = some res ∧
      startCallCount (performRealAIAnalysis env stock svc s).2 = 1 ∧
      serviceCallCount (performRealAIAnalysis env stock svc s).2 = 1 ∧
      completeCallCount (performRealAIAnalysis env stock svc s).2 = 1 := by
  cases ho : svc.outcome with
  | ok r =>
      refine ⟨attachLogs r (runLogs env stock svc), ?_, ?_, ?_, ?_, ?_⟩ <;>
        simp [performRealAIAnalysis, hg1, hg2, ho, startCallCount, serviceCallCount,
          completeCallCount]
  | error msg =>
      refine ⟨fallbackResult (runLogs env stock svc), ?_, ?_, ?_, ?_, ?_⟩ <;>
        simp [performRealAIAnalysis, hg1, hg2, ho, startCallCount, serviceCallCount,
          completeCallCount]

/-- Claim C8 witness: the callback discipline on a fresh panel with the
rejecting service behaviour (the failure path). -/
theorem c8_witness :
    ∃ res : FinalResult,
      (performRealAIAnalysis envId sampleStock failingSvc (initState freshProps)).2 =
        [REvent.evStart sampleStock.ticker, REvent.evService,
         REvent.evComplete sampleStock.ticker res] ∧
      (performRealAIAnalysis envId sampleStock failingSvc (initState freshProps)).1.result =
        some res ∧
      startCallCount (performRealAIAnalysis envId sampleStock failingSvc
        (initState freshProps)).2 = 1 ∧
      serviceCallCount (performRealAIAnalysis envId sampleStock failingSvc
        (initState freshProps)).2 = 1 ∧
      completeCallCount (performRealAIAnalysis envId sampleStock failingSvc
        (initState freshProps)).2 = 1 :=
  c8_callbacks_once envId sampleStock failingSvc (initState freshProps) rfl rfl

/-- Claim C9: a run started from any guard-clear state produces the log
sequence determined by the stock and the service behaviour alone — the
state's previous log entries are cleared before the new run's entries are
appended, so two runs from different prior states (for example re-analyze
after a completed run) yield identical logs and identical `savedLogs`, and
the first in-flight render holds only the four startup entries. -/
theorem c9_logs_reset (env : Nat → Nat × Nat) (stock : Stock) (svc : ServiceCall)
    (s t : PanelState)
    (hg1 : s.analyzing = false) (hg2 : s.analysisInProgress = false)
    (hg3 : t.analyzing = false) (hg4 : t.analysisInProgress = false) :
    (performRealAIAnalysis env stock svc s).1.logs = runLogs env stock svc ∧
    (performRealAIAnalysis env stock svc s).1.logs =
      (performRealAIAnalysis env stock svc t).1.logs ∧
    (∃ fr, (performRealAIAnalysis env stock svc s).1.result = some fr ∧
      fr.savedLogs = runLogs env stock svc) ∧
    (midRunState env stock svc s 0).logs = startupLogs env stock := by
  cases ho : svc.outcome with
  | ok r =>
      refine ⟨?_, ?_, ⟨attachLogs r (runLogs env stock svc), ?_, rfl⟩, ?_⟩ <;>
        simp [performRealAIAnalysis, hg1, hg2, hg3, hg4, ho, midRunState, progressLogs]
  | error msg =>
      refine ⟨?_, ?_, ⟨fallbackResult (runLogs env stock svc), ?_, rfl⟩, ?_⟩ <;>
        simp [performRealAIAnalysis, hg1, hg2, hg3, hg4, ho, midRunState, progressLogs]

/-- Claim C9 witness: a run restarted from the completed state left by a
previous successful run produces the same fresh log sequence as a run from
the initial state. -/
theorem c9_witness :
    (performRealAIAnalysis envId sampleStock okSvc
        (performRealAIAnalysis envId sampleStock okSvc (initState freshProps)).1).1.logs =
      runLogs envId sampleStock okSvc ∧
    (performRealAIAnalysis envId sampleStock okSvc
        (performRealAIAnalysis envId sampleStock okSvc (initState freshProps)).1).1.logs =
      (performRealAIAnalysis envId sampleStock okSvc (initState freshProps)).1.logs ∧
    (∃ fr, (performRealAIAnalysis envId sampleStock okSvc
        (performRealAIAnalysis envId sampleStock okSvc (initState freshProps)).1).1.result =
          some fr ∧
      fr.savedLogs = runLogs envId sampleStock okSvc) ∧
    (midRunState envId sampleStock okSvc
        (performRealAIAnalysis envId sampleStock okSvc (initState freshProps)).1 0).logs =
      startupLogs envId sampleStock :=
  c9_logs_reset envId sampleStock okSvc
    (performRealAIAnalysis envId sampleStock okSvc (initState freshProps)).1
    (initState freshProps) rfl rfl rfl rfl

/-- Claim C10: the fallback delivered on the failure path carries exactly
the six fields of the catch-block literal: `analysisTimestamp`,
`hasTechnicalData`, `technicalBars` and `hasFullArticle` are absent from
it, while `buyPercentage`, `signal`, `reasoning`, `eodMovement`,
`confidence` and `savedLogs` are present with the literal's values. -/
theorem c10_fallback_fields (env : Nat → Nat × Nat) (stock : Stock) (svc : ServiceCall)
    (s : PanelState) (msg : String)
    (hg1 : s.analyzing = false) (hg2 : s.analysisInProgress = false)
    (ho : svc.outcome = Except.error msg) :
    ∃ fr : FinalResult,
      (performRealAIAnalysis env stock svc s).2 =
        [REvent.evStart stock.ticker, REvent.evService, REvent.evComplete stock.ticker fr] ∧
      fr.analysisTimestamp = none ∧ fr.hasTechnicalData = none ∧
      fr.technicalBars = none ∧ fr.hasFullArticle = none ∧
      fr.buyPercentage = 30 ∧ fr.signal = "hold" ∧
      fr.reasoning = "AI service unavailable" ∧ fr.eodMovement = some 0 ∧
      fr.confidence = 0.2 ∧ fr.savedLogs = runLogs env stock svc := by
  refine ⟨fallbackResult (runLogs env stock svc), ?_, rfl, rfl, rfl, rfl, rfl, rfl,
    rfl, rfl, rfl, rfl⟩
  simp [performRealAIAnalysis, hg1, hg2, ho]

/-- Claim C10 witness: the fallback fields on the concrete rejecting run. -/
theorem c10_witness :
    ∃ fr : FinalResult,
      (performRealAIAnalysis envId sampleStock failingSvc (initState freshProps)).2 =
        [REvent.evStart sampleStock.ticker, REvent.evService,
         REvent.evComplete sampleStock.ticker fr] ∧
      fr.analysisTimestamp = none ∧ fr.hasTechnicalData = none ∧
      fr.technicalBars = none ∧ fr.hasFullArticle = none ∧
      fr.buyPercentage = 30 ∧ fr.signal = "hold" ∧
      fr.reasoning = "AI service unavailable" ∧ fr.eodMovement = some 0 ∧
      fr.confidence = 0.2 ∧ fr.savedLogs = runLogs envId sampleStock failingSvc :=
  c10_fallback_fields envId sampleStock failingSvc (initState freshProps) "timeout"
    rfl rfl rfl

end AIWorker
